import Mathlib

/-!
Verification of the Google compute provider's route and address resource
controllers (`resource_compute_route.go` and the generated compute-address
resource file) against the reconciliation-engine specification.

The Go code is shallowly embedded: `*schema.ResourceData` becomes an explicit
record of declared field values plus the identity string, the remote API client
becomes an explicit environment of response-valued functions, and each CRUD
handler becomes a pure function from environment and state to an outcome and a
new state.  Helpers that live elsewhere in the repository (`parseImportId`,
`handleNotFoundError`, `parseRegionalFieldValue`, `parseGlobalFieldValue`,
`ConvertSelfLinkToV1`, `replaceVars`, `getProject`, `isEmptyValue`, the
operation-wait helpers) are modelled from the specification text, as marked on
each definition.
-/

/-- A dynamic value from a wire-protocol response map (`interface{}` in Go).
`vnil` is Go's `nil`. -/
inductive GVal where
  | vnil
  | str (s : String)
  | int (n : Int)
  | strList (ss : List String)
deriving DecidableEq, Repr

/-- How the schema framework stores a dynamic value into a string-typed
schema slot (`nil` stores as the zero string). -/
def gvalToString : GVal → String
  | GVal.str s => s
  | _ => ""

/-- An error answered by the remote API; `notFound` marks an HTTP 404. -/
structure ApiError where
  notFound : Bool
  msg : String
deriving DecidableEq, Repr

/-- An error returned by a CRUD handler: either an ordinary `fmt.Errorf`
message or an `OperationError` (a server-reported failure inside a completed
asynchronous operation). -/
inductive CrudError where
  | plain (s : String)
  | operation (s : String)
deriving DecidableEq, Repr

/-- Result of running a CRUD handler: a normal return (`ok`/`err`) carrying the
final resource state, or `crashed` for a Go runtime panic (failed type
assertion), which never returns normally. -/
inductive Outcome (σ : Type) where
  | ok (s : σ)
  | err (e : CrudError) (s : σ)
  | crashed
deriving DecidableEq, Repr

/-- Splits a character list at `/` separators, accumulating the current
segment. -/
def splitSlashAux : List Char → List Char → List String
  | [], acc => [String.mk acc.reverse]
  | c :: cs, acc =>
    if c = '/' then String.mk acc.reverse :: splitSlashAux cs []
    else splitSlashAux cs (c :: acc)

/-- `strings.Split(s, "/")`. -/
def splitOnSlash (s : String) : List String := splitSlashAux s.data []

/-- Whether `s` starts with `p` (kernel-reducible `strings.HasPrefix`). -/
def strHasPre (p s : String) : Bool := p.data.isPrefixOf s.data

/-- Drops the first `n` characters of `s`. -/
def strDropLen (s : String) (n : Nat) : String := String.mk (s.data.drop n)

/-- `parts[len(parts)-1]` of `strings.Split(selfLink, "/")`.  Modelled from the
spec: the short name of a self-link is its last path segment. -/
def GetResourceNameFromSelfLink (s : String) : String :=
  (splitOnSlash s).getLastD ""

/-- Modelled from the spec: `ConvertSelfLinkToV1` (not under src/) rewrites the
API-version segment of a fully-qualified self-link to the v1 surface and leaves
every other string unchanged. -/
def ConvertSelfLinkToV1 (s : String) : String :=
  if strHasPre "https://www.googleapis.com/compute/beta/" s then
    "https://www.googleapis.com/compute/v1/" ++
      strDropLen s ("https://www.googleapis.com/compute/beta/".length)
  else s

/-- One attribute of a resource schema, with the flags used by the two
resource definitions. -/
structure SchemaAttr where
  attrName : String
  required : Bool
  optional : Bool
  computed : Bool
  forceNew : Bool
deriving DecidableEq, Repr

/-- The schema of `resourceComputeRoute` (`resource_compute_route.go`). -/
def resourceComputeRouteSchema : List SchemaAttr :=
  [ { attrName := "name", required := true, optional := false, computed := false, forceNew := true },
    { attrName := "dest_range", required := true, optional := false, computed := false, forceNew := true },
    { attrName := "network", required := true, optional := false, computed := false, forceNew := true },
    { attrName := "next_hop_ip", required := false, optional := true, computed := false, forceNew := true },
    { attrName := "next_hop_instance", required := false, optional := true, computed := false, forceNew := true },
    { attrName := "next_hop_instance_zone", required := false, optional := true, computed := false, forceNew := true },
    { attrName := "next_hop_gateway", required := false, optional := true, computed := false, forceNew := true },
    { attrName := "next_hop_network", required := false, optional := true, computed := false, forceNew := true },
    { attrName := "priority", required := true, optional := false, computed := false, forceNew := true },
    { attrName := "tags", required := false, optional := true, computed := false, forceNew := false } ]

/-- The schema of `resourceComputeAddress` (generated compute-address file). -/
def resourceComputeAddressSchema : List SchemaAttr :=
  [ { attrName := "name", required := true, optional := false, computed := false, forceNew := true },
    { attrName := "address", required := false, optional := true, computed := true, forceNew := true },
    { attrName := "address_type", required := false, optional := true, computed := false, forceNew := true },
    { attrName := "description", required := false, optional := true, computed := false, forceNew := true },
    { attrName := "network_tier", required := false, optional := true, computed := true, forceNew := true },
    { attrName := "region", required := false, optional := true, computed := true, forceNew := true },
    { attrName := "subnetwork", required := false, optional := true, computed := true, forceNew := true },
    { attrName := "creation_timestamp", required := false, optional := false, computed := true, forceNew := false },
    { attrName := "users", required := false, optional := false, computed := true, forceNew := false },
    { attrName := "project", required := false, optional := true, computed := true, forceNew := true },
    { attrName := "self_link", required := false, optional := false, computed := true, forceNew := false } ]

/-- The declared state of a route resource (`*schema.ResourceData`): every
schema field plus the assigned identity.  An empty string models an unset
optional field (`d.GetOk` answers false exactly on zero values). -/
structure RouteData where
  name : String
  destRange : String
  network : String
  nextHopIp : String
  nextHopInstance : String
  nextHopInstanceZone : String
  nextHopGateway : String
  nextHopNetwork : String
  priority : Int
  tags : List String
  id : String
deriving DecidableEq, Repr

/-- The wire payload `compute.Route` built by `resourceComputeRouteCreate`. -/
structure RouteWire where
  name : String
  destRange : String
  network : String
  nextHopInstance : String
  nextHopIp : String
  nextHopNetwork : String
  nextHopGateway : String
  priority : Int
  tags : List String
deriving DecidableEq, Repr

/-- The remote API as seen by the route controller.  `pollInsert` and
`pollDelete` are the poller outcomes for the returned operations:
`.error e` is a `WaitForState` failure (e.g. a timeout), `.ok (some e)` is a
completed operation carrying `op.Error`, `.ok none` is success. -/
structure RouteEnv where
  getNetwork : String → Except ApiError String
  getInstance : String → String → Except ApiError String
  insertRoute : RouteWire → Except ApiError Unit
  pollInsert : Except String (Option String)
  getRoute : String → Except ApiError Unit
  deleteRoute : String → Except ApiError Unit
  pollDelete : Except String (Option String)

/-- `resourceComputeRouteRead`: fetch the route by id; any fetch error — a 404
included — becomes an ordinary error, and the response body is discarded, so no
field of the state is written. -/
def resourceComputeRouteRead (env : RouteEnv) (d : RouteData) :
    Except CrudError Unit × RouteData :=
  match env.getRoute d.id with
  | .error e => (.error (.plain ("Error reading route: " ++ e.msg)), d)
  | .ok () => (.ok (), d)

/-- The tail of `resourceComputeRouteCreate` after the insert succeeded and
the id was stored: wait on the operation; a `WaitForState` error returns with
the id still set, a completed operation carrying an error clears the id and
surfaces an `OperationError`, and success re-reads. -/
def routeCreatePoll (env : RouteEnv) (d : RouteData) (routeName : String) :
    Except CrudError Unit × RouteData :=
  match env.pollInsert with
  | .error e =>
    (.error (.plain ("Error waiting for route to create: " ++ e)),
     { d with id := routeName })
  | .ok (some opErrMsg) => (.error (.operation opErrMsg), { d with id := "" })
  | .ok none => resourceComputeRouteRead env { d with id := routeName }

/-- The insert step of `resourceComputeRouteCreate`: submit the built payload,
then store the id and wait. -/
def routeCreateSubmit (env : RouteEnv) (d : RouteData) (route : RouteWire) :
    Except CrudError Unit × RouteData :=
  match env.insertRoute route with
  | .error e => (.error (.plain ("Error creating route: " ++ e.msg)), d)
  | .ok _ => routeCreatePoll env d route.name

/-- `resourceComputeRouteCreate`: resolve the network and next-hop references,
build the wire payload, then insert, store the id and poll
(`routeCreateSubmit`, `routeCreatePoll`). -/
def resourceComputeRouteCreate (env : RouteEnv) (d : RouteData) :
    Except CrudError Unit × RouteData :=
  match env.getNetwork d.network with
  | .error e => (.error (.plain ("Error reading network: " ++ e.msg)), d)
  | .ok networkLink =>
    match (if d.nextHopInstance ≠ "" then
             (env.getInstance d.nextHopInstanceZone d.nextHopInstance).map some
           else .ok none) with
    | .error e => (.error (.plain ("Error reading instance: " ++ e.msg)), d)
    | .ok instLink =>
      match (if d.nextHopNetwork ≠ "" then
               (env.getNetwork d.nextHopNetwork).map some
             else .ok none) with
      | .error e => (.error (.plain ("Error reading network: " ++ e.msg)), d)
      | .ok nhNetLink =>
        routeCreateSubmit env d
          { name := d.name, destRange := d.destRange, network := networkLink,
            nextHopInstance := instLink.getD "", nextHopIp := d.nextHopIp,
            nextHopNetwork := nhNetLink.getD "", nextHopGateway := d.nextHopGateway,
            priority := d.priority, tags := d.tags }

/-- `resourceComputeRouteDelete`: submit the deletion (any error — a 404
included — is an ordinary error), poll, surface `op.Error` as an
`OperationError`, and clear the id only on success. -/
def resourceComputeRouteDelete (env : RouteEnv) (d : RouteData) :
    Except CrudError Unit × RouteData :=
  match env.deleteRoute d.id with
  | .error e => (.error (.plain ("Error deleting route: " ++ e.msg)), d)
  | .ok () =>
    match env.pollDelete with
    | .error e => (.error (.plain ("Error waiting for route to delete: " ++ e)), d)
    | .ok (some opErrMsg) => (.error (.operation opErrMsg), d)
    | .ok none => (.ok (), { d with id := "" })

/-- One declared string-typed field of the address state: the value `d.Get`
answers (the framework substitutes the schema default when unset) and the
existence flag `d.GetOkExists` answers. -/
structure SField where
  val : String
  hasVal : Bool
deriving DecidableEq, Repr

/-- The declared state of an address resource: every schema field plus the
assigned identity. -/
structure AddressData where
  name : SField
  address : SField
  addressType : SField
  description : SField
  networkTier : SField
  subnetwork : SField
  region : SField
  project : SField
  creationTimestamp : String
  users : GVal
  selfLink : String
  id : String
deriving DecidableEq, Repr

/-- A raw wire-protocol response map (`map[string]interface{}`). -/
def ResMap := List (String × GVal)
deriving DecidableEq, Repr

/-- Go map indexing: an absent key answers `nil`. -/
def ResMap.find (m : ResMap) (k : String) : GVal :=
  match List.lookup k m with
  | some v => v
  | none => GVal.vnil

/-- The remote API and ambient context as seen by the address controller.
`project`/`region` are the provider-level defaults (`config.Project`,
`config.Region`); `pollCreate`/`pollDelete` are the outcomes of
`computeOperationWaitTime`, which reports both an operation failure and a
timeout as an error. -/
structure AddressEnv where
  project : Option String
  region : Option String
  sendPost : String → List (String × String) → Except ApiError ResMap
  sendGet : String → Except ApiError ResMap
  sendDelete : String → Except ApiError ResMap
  convertCreate : ResMap → Except String Unit
  convertDelete : ResMap → Except String Unit
  pollCreate : Except String Unit
  pollDelete : Except String Unit

/-- Modelled from the spec: a template variable substitutes the declared field
value, falling back to the ambient default, and `replaceVars` fails when
neither is available. -/
def templateVar (fieldVal : String) (ambient : Option String) : Except String String :=
  if fieldVal ≠ "" then .ok fieldVal
  else match ambient with
       | some a => .ok a
       | none => .error "required template field is not set"

/-- Modelled from the spec: `getProject` resolves the effective project from
the declared state, falling back to the provider default. -/
def getProject (d : AddressData) (env : AddressEnv) : Except String String :=
  templateVar d.project.val env.project

/-- Modelled from the spec: `getRegion` resolves the effective region from the
declared state, falling back to the provider default. -/
def getRegion (d : AddressData) (env : AddressEnv) : Except String String :=
  match templateVar d.region.val env.region with
  | .ok r => .ok (GetResourceNameFromSelfLink r)
  | .error e => .error e

/-- The collection URL the create call posts to (the address-list template with
project and region substituted). -/
def addressCollectionUrl (env : AddressEnv) (d : AddressData) : Except String String :=
  match getProject d env with
  | .error e => .error e
  | .ok p =>
    match getRegion d env with
    | .error e => .error e
    | .ok r =>
      .ok ("https://www.googleapis.com/compute/v1/projects/" ++ p ++ "/regions/" ++ r
            ++ "/addresses")

/-- The per-object URL used by read and delete (the single-address template
with project, region and name substituted). -/
def addressSelfUrl (env : AddressEnv) (d : AddressData) : Except String String :=
  match getProject d env with
  | .error e => .error e
  | .ok p =>
    match getRegion d env with
    | .error e => .error e
    | .ok r =>
      match templateVar d.name.val none with
      | .error e => .error e
      | .ok n =>
        .ok ("https://www.googleapis.com/compute/v1/projects/" ++ p ++ "/regions/" ++ r
              ++ "/addresses/" ++ n)

/-- The identity template of the address kind, project slash region slash
name. -/
def addressIdString (env : AddressEnv) (d : AddressData) : Except String String :=
  match getProject d env with
  | .error e => .error e
  | .ok p =>
    match getRegion d env with
    | .error e => .error e
    | .ok r =>
      match templateVar d.name.val none with
      | .error e => .error e
      | .ok n => .ok (p ++ "/" ++ r ++ "/" ++ n)

/-- The parsed form of a region-scoped reference field
(`RegionalFieldValue`). -/
structure RegionalFieldValue where
  project : String
  region : String
  resourceType : String
  fieldName : String
deriving DecidableEq, Repr

/-- `RegionalFieldValue.RelativeLink`: empty for an unset value, otherwise the
canonical relative link. -/
def RegionalFieldValue.relativeLink (f : RegionalFieldValue) : String :=
  if f.fieldName = "" then ""
  else "projects/" ++ f.project ++ "/regions/" ++ f.region ++ "/" ++ f.resourceType
        ++ "/" ++ f.fieldName

/-- Strips the fully-qualified compute base (scheme, host, API version) from a
split self-link, leaving the relative segments. -/
def stripComputeBase (segs : List String) : List String :=
  match segs with
  | "https:" :: "" :: "www.googleapis.com" :: "compute" :: _apiVersion :: rest => rest
  | _ => segs

/-- Modelled from the spec: `parseRegionalFieldValue` (not under src/) resolves
a user-supplied short name, full URL, or partial path into its components,
drawing project and region from the ambient context when the input does not
carry them, and fails when the input matches none of the accepted shapes.  An
empty input parses to the empty value. -/
def parseRegionalFieldValue (resourceType v : String) (ambProject ambRegion : Option String) :
    Except String RegionalFieldValue :=
  if v = "" then .ok ⟨"", "", resourceType, ""⟩
  else
    match stripComputeBase (splitOnSlash v) with
    | ["projects", p, "regions", r, t, n] =>
      if t = resourceType then .ok ⟨p, r, resourceType, n⟩
      else .error "resource type mismatch in reference"
    | [p, r, n] => .ok ⟨p, r, resourceType, n⟩
    | [r, n] =>
      match ambProject with
      | some p => .ok ⟨p, r, resourceType, n⟩
      | none => .error "project: required field is not set"
    | [n] =>
      match ambProject, ambRegion with
      | some p, some r => .ok ⟨p, r, resourceType, n⟩
      | _, _ => .error "project or region: required field is not set"
    | _ => .error "invalid field format for a regional reference"

/-- The parsed form of a project-scoped reference field
(`GlobalFieldValue`). -/
structure GlobalFieldValue where
  project : String
  resourceType : String
  fieldName : String
deriving DecidableEq, Repr

/-- `GlobalFieldValue.RelativeLink`: empty for an unset value, otherwise the
canonical relative link. -/
def GlobalFieldValue.relativeLink (f : GlobalFieldValue) : String :=
  if f.fieldName = "" then ""
  else "projects/" ++ f.project ++ "/" ++ f.resourceType ++ "/" ++ f.fieldName

/-- Modelled from the spec: `parseGlobalFieldValue` (not under src/) resolves a
short name, full URL, or partial path of a project-scoped resource, drawing the
project from the ambient context when absent. -/
def parseGlobalFieldValue (resourceType v : String) (ambProject : Option String) :
    Except String GlobalFieldValue :=
  if v = "" then .ok ⟨"", resourceType, ""⟩
  else
    match stripComputeBase (splitOnSlash v) with
    | ["projects", p, t, n] =>
      if t = resourceType then .ok ⟨p, resourceType, n⟩
      else .error "resource type mismatch in reference"
    | [p, n] => .ok ⟨p, resourceType, n⟩
    | [n] =>
      match ambProject with
      | some p => .ok ⟨p, resourceType, n⟩
      | none => .error "project: required field is not set"
    | _ => .error "invalid field format for a global reference"

/-- Modelled from the spec: the reflection-based `isEmptyValue` (not under
src/) answers true exactly on a type's zero value. -/
def isEmptyValue (s : String) : Bool := s == ""

/-- The per-field inclusion test of the generated create body: keep the
expanded value only when it is non-empty and the field was either explicitly
set (`d.GetOkExists`) or differs from the declared value. -/
def fieldIncluded (f : SField) (expanded : String) : Bool :=
  !(isEmptyValue expanded) && (f.hasVal || f.val != expanded)

/-- The payload entries one field contributes to the create body. -/
def entryIf (k : String) (f : SField) (expanded : String) : List (String × String) :=
  if fieldIncluded f expanded then [(k, expanded)] else []

/-- `expandComputeAddressAddress`: identity. -/
def expandComputeAddressAddress (v : String) : Except String String := .ok v

/-- `expandComputeAddressAddressType`: identity. -/
def expandComputeAddressAddressType (v : String) : Except String String := .ok v

/-- `expandComputeAddressDescription`: identity. -/
def expandComputeAddressDescription (v : String) : Except String String := .ok v

/-- `expandComputeAddressName`: identity. -/
def expandComputeAddressName (v : String) : Except String String := .ok v

/-- `expandComputeAddressNetworkTier`: identity. -/
def expandComputeAddressNetworkTier (v : String) : Except String String := .ok v

/-- The ambient project candidate the reference parsers draw from: the
declared project field, then the provider default. -/
def ambientProject (env : AddressEnv) (d : AddressData) : Option String :=
  if d.project.val ≠ "" then some d.project.val else env.project

/-- The ambient region candidate the reference parsers draw from: the declared
region field, then the provider default. -/
def ambientRegion (env : AddressEnv) (d : AddressData) : Option String :=
  if d.region.val ≠ "" then some d.region.val else env.region

/-- `expandComputeAddressSubnetwork`: resolve the reference through
`parseRegionalFieldValue` and answer its relative link. -/
def expandComputeAddressSubnetwork (env : AddressEnv) (d : AddressData) (v : String) :
    Except String String :=
  match parseRegionalFieldValue "subnetworks" v (ambientProject env d) (ambientRegion env d) with
  | .error e => .error ("Invalid value for subnetwork: " ++ e)
  | .ok f => .ok f.relativeLink

/-- `expandComputeAddressRegion`: resolve the reference through
`parseGlobalFieldValue` and answer its relative link. -/
def expandComputeAddressRegion (env : AddressEnv) (d : AddressData) (v : String) :
    Except String String :=
  match parseGlobalFieldValue "regions" v (ambientProject env d) with
  | .error e => .error ("Invalid value for region: " ++ e)
  | .ok f => .ok f.relativeLink

/-- `flattenComputeAddressAddress`: identity. -/
def flattenComputeAddressAddress (v : GVal) : GVal := v

/-- `flattenComputeAddressAddressType`: `nil` and the empty string flatten to
the server default `"EXTERNAL"`; a non-string non-nil value fails the
`v.(string)` assertion (`none`). -/
def flattenComputeAddressAddressType : GVal → Option GVal
  | GVal.vnil => some (GVal.str "EXTERNAL")
  | GVal.str s => if s = "" then some (GVal.str "EXTERNAL") else some (GVal.str s)
  | _ => none

/-- `flattenComputeAddressCreationTimestamp`: identity. -/
def flattenComputeAddressCreationTimestamp (v : GVal) : GVal := v

/-- `flattenComputeAddressDescription`: identity. -/
def flattenComputeAddressDescription (v : GVal) : GVal := v

/-- `flattenComputeAddressName`: identity. -/
def flattenComputeAddressName (v : GVal) : GVal := v

/-- `flattenComputeAddressNetworkTier`: identity. -/
def flattenComputeAddressNetworkTier (v : GVal) : GVal := v

/-- `flattenComputeAddressSubnetwork`: `nil` passes through; a string is
canonicalized by `ConvertSelfLinkToV1`; anything else fails the `v.(string)`
assertion (`none`). -/
def flattenComputeAddressSubnetwork : GVal → Option GVal
  | GVal.vnil => some GVal.vnil
  | GVal.str s => some (GVal.str (ConvertSelfLinkToV1 s))
  | _ => none

/-- `flattenComputeAddressUsers`: identity. -/
def flattenComputeAddressUsers (v : GVal) : GVal := v

/-- `flattenComputeAddressRegion`: `nil` passes through; a string is shortened
to its resource name; anything else fails the `v.(string)` assertion
(`none`). -/
def flattenComputeAddressRegion : GVal → Option GVal
  | GVal.vnil => some GVal.vnil
  | GVal.str s => some (GVal.str (GetResourceNameFromSelfLink s))
  | _ => none

/-- The create body (`obj`) of `resourceComputeAddressCreate`: every declared
field is expanded and appended under its wire key when `fieldIncluded` holds;
an expansion failure aborts the build. -/
def buildAddressCreateObj (env : AddressEnv) (d : AddressData) :
    Except CrudError (List (String × String)) :=
  match expandComputeAddressSubnetwork env d d.subnetwork.val with
  | .error e => .error (.plain e)
  | .ok subnetworkProp =>
    match expandComputeAddressRegion env d d.region.val with
    | .error e => .error (.plain e)
    | .ok regionProp =>
      .ok (entryIf "address" d.address d.address.val
           ++ entryIf "addressType" d.addressType d.addressType.val
           ++ entryIf "description" d.description d.description.val
           ++ entryIf "name" d.name d.name.val
           ++ entryIf "networkTier" d.networkTier d.networkTier.val
           ++ entryIf "subnetwork" d.subnetwork subnetworkProp
           ++ entryIf "region" d.region regionProp)

/-- The declared field a wire key of the create body corresponds to. -/
def declaredFieldOf (d : AddressData) : String → Option SField
  | "address" => some d.address
  | "addressType" => some d.addressType
  | "description" => some d.description
  | "name" => some d.name
  | "networkTier" => some d.networkTier
  | "subnetwork" => some d.subnetwork
  | "region" => some d.region
  | _ => none

/-- `resourceComputeAddressRead`: build the self URL, fetch, convert a 404
into success-with-cleared-identity (`handleNotFoundError`, modelled from the
spec), otherwise flatten every wire field into the declared state; the
`self_link` step performs an unguarded string assertion on the raw value, and
the project field is set from the ambient project rather than the wire. -/
def resourceComputeAddressRead (env : AddressEnv) (d : AddressData) : Outcome AddressData :=
  match addressSelfUrl env d with
  | .error e => Outcome.err (.plain e) d
  | .ok url =>
    match env.sendGet url with
    | .error e =>
      if e.notFound then Outcome.ok { d with id := "" }
      else Outcome.err (.plain ("Error reading ComputeAddress " ++ d.id ++ ": " ++ e.msg)) d
    | .ok res =>
      match flattenComputeAddressAddressType (ResMap.find res "addressType") with
      | none => Outcome.crashed
      | some addressTypeV =>
        match flattenComputeAddressSubnetwork (ResMap.find res "subnetwork") with
        | none => Outcome.crashed
        | some subnetworkV =>
          match flattenComputeAddressRegion (ResMap.find res "region") with
          | none => Outcome.crashed
          | some regionV =>
            match ResMap.find res "selfLink" with
            | GVal.str selfLinkV =>
              let d1 : AddressData := { d with
                address := ⟨gvalToString (flattenComputeAddressAddress (ResMap.find res "address")), true⟩,
                addressType := ⟨gvalToString addressTypeV, true⟩,
                creationTimestamp := gvalToString (flattenComputeAddressCreationTimestamp (ResMap.find res "creationTimestamp")),
                description := ⟨gvalToString (flattenComputeAddressDescription (ResMap.find res "description")), true⟩,
                name := ⟨gvalToString (flattenComputeAddressName (ResMap.find res "name")), true⟩,
                networkTier := ⟨gvalToString (flattenComputeAddressNetworkTier (ResMap.find res "networkTier")), true⟩,
                subnetwork := ⟨gvalToString subnetworkV, true⟩,
                users := flattenComputeAddressUsers (ResMap.find res "users"),
                region := ⟨gvalToString regionV, true⟩,
                selfLink := ConvertSelfLinkToV1 selfLinkV }
              match getProject d env with
              | .error e => Outcome.err (.plain e) d1
              | .ok p => Outcome.ok { d1 with project := ⟨p, true⟩ }
            | _ => Outcome.crashed

/-- `resourceComputeAddressCreate`: build the create body, post it, store the
identity, then poll; a poller error (operation failure or timeout alike)
clears the just-assigned identity before returning; on success, re-read. -/
def resourceComputeAddressCreate (env : AddressEnv) (d : AddressData) : Outcome AddressData :=
  match buildAddressCreateObj env d with
  | .error e => Outcome.err e d
  | .ok obj =>
    match addressCollectionUrl env d with
    | .error e => Outcome.err (.plain e) d
    | .ok url =>
      match env.sendPost url obj with
      | .error e => Outcome.err (.plain ("Error creating Address: " ++ e.msg)) d
      | .ok res =>
        match addressIdString env d with
        | .error e => Outcome.err (.plain ("Error constructing id: " ++ e)) d
        | .ok idStr =>
          match getProject { d with id := idStr } env with
          | .error e => Outcome.err (.plain e) { d with id := idStr }
          | .ok _ =>
            match env.convertCreate res with
            | .error e => Outcome.err (.plain e) { d with id := idStr }
            | .ok () =>
              match env.pollCreate with
              | .error w =>
                Outcome.err (.plain ("Error waiting to create Address: " ++ w)) { d with id := "" }
              | .ok () => resourceComputeAddressRead env { d with id := idStr }

/-- `resourceComputeAddressDelete`: build the self URL, submit the deletion,
convert a 404 into success-with-cleared-identity (`handleNotFoundError`,
modelled from the spec) without polling, otherwise poll the returned
operation; the identity is untouched on every other path. -/
def resourceComputeAddressDelete (env : AddressEnv) (d : AddressData) : Outcome AddressData :=
  match addressSelfUrl env d with
  | .error e => Outcome.err (.plain e) d
  | .ok url =>
    match env.sendDelete url with
    | .error e =>
      if e.notFound then Outcome.ok { d with id := "" }
      else Outcome.err (.plain ("Error reading Address: " ++ e.msg)) d
    | .ok res =>
      match getProject d env with
      | .error e => Outcome.err (.plain e) d
      | .ok _ =>
        match env.convertDelete res with
        | .error e => Outcome.err (.plain e) d
        | .ok () =>
          match env.pollDelete with
          | .error e => Outcome.err (.plain e) d
          | .ok () => Outcome.ok d

/-- One segment of an import-id pattern: a literal path piece or a named
capture (`[^/]+`, any non-empty slash-free run). -/
inductive PatternSeg where
  | lit (s : String)
  | cap (field : String)
deriving DecidableEq, Repr

/-- Whole-string matching of one pattern against the split import id, binding
each capture to its segment. -/
def matchSegs : List PatternSeg → List String → Option (List (String × String))
  | [], [] => some []
  | PatternSeg.lit s :: ps, t :: ts => if t = s then matchSegs ps ts else none
  | PatternSeg.cap f :: ps, t :: ts =>
    if t ≠ "" then (matchSegs ps ts).map (fun m => (f, t) :: m) else none
  | _, _ => none

/-- The first pattern, in declaration order, that matches the whole split
id. -/
def firstPatternMatch : List (List PatternSeg) → List String → Option (List (String × String))
  | [], _ => none
  | p :: ps, segs =>
    match matchSegs p segs with
    | some m => some m
    | none => firstPatternMatch ps segs

/-- Modelled from the spec: `parseImportId` (not under src/) tries the
patterns strictly in declaration order, the first whole-string match wins, and
no match is an error. -/
def parseImportId (pats : List (List PatternSeg)) (importId : String) :
    Except String (List (String × String)) :=
  match firstPatternMatch pats (splitOnSlash importId) with
  | some m => .ok m
  | none => .error "Import id does not match any accepted format for this resource"

/-- The three import-id patterns of `resourceComputeAddressImport`, in
declaration order. -/
def addressImportPatterns : List (List PatternSeg) :=
  [ [PatternSeg.lit "projects", PatternSeg.cap "project", PatternSeg.lit "regions",
     PatternSeg.cap "region", PatternSeg.lit "addresses", PatternSeg.cap "name"],
    [PatternSeg.cap "project", PatternSeg.cap "region", PatternSeg.cap "name"],
    [PatternSeg.cap "name"] ]

/-- Stores the captured identity fields into the declared state. -/
def applyFieldMap (m : List (String × String)) (d : AddressData) : AddressData :=
  let d1 := match List.lookup "project" m with
            | some v => { d with project := ⟨v, true⟩ }
            | none => d
  let d2 := match List.lookup "region" m with
            | some v => { d1 with region := ⟨v, true⟩ }
            | none => d1
  match List.lookup "name" m with
  | some v => { d2 with name := ⟨v, true⟩ }
  | none => d2

/-- `resourceComputeAddressImport`: run `parseImportId` — its return value is
discarded, so a no-pattern-matched error never surfaces — then construct the
canonical identity from whatever fields are now set. -/
def resourceComputeAddressImport (env : AddressEnv) (d : AddressData) (importId : String) :
    Except CrudError AddressData :=
  let d1 := match parseImportId addressImportPatterns importId with
            | .ok m => applyFieldMap m d
            | .error _ => d
  match addressIdString env d1 with
  | .error e => .error (.plain ("Error constructing id: " ++ e))
  | .ok idStr => .ok { d1 with id := idStr }

/-- Whether a declared value is a fully-qualified self-link URL (glossary:
"a fully-qualified URL identifying a remote object"). -/
def isSelfLinkUrl (s : String) : Bool := strHasPre "https://" s

/-- The canonical form named by the specification's round-trip property for a
reference field kept as a relative link: the identity, except that a self-link
canonicalizes to its relative form. -/
def canonicalFormSubnetwork (s : String) : String :=
  if isSelfLinkUrl s then String.intercalate "/" (stripComputeBase (splitOnSlash s)) else s

/-- The canonical form named by the specification's round-trip property for a
reference field kept as a short name: the identity, except that a self-link
canonicalizes to its short name. -/
def canonicalFormRegion (s : String) : String :=
  if isSelfLinkUrl s then GetResourceNameFromSelfLink s else s

/-- The canonical form named by the specification's round-trip property for
the address type: an absent or empty value becomes the server default
`"EXTERNAL"`; everything else is the identity. -/
def canonicalFormAddressType (s : String) : String :=
  if s = "" then "EXTERNAL" else s

/-- The subnetwork round trip, expand then flatten, over a declared value. -/
def subnetworkRoundTrip (env : AddressEnv) (d : AddressData) (v : String) :
    Except String (Option GVal) :=
  match expandComputeAddressSubnetwork env d v with
  | .error e => .error e
  | .ok w => .ok (flattenComputeAddressSubnetwork (GVal.str w))

/-- The region round trip, expand then flatten, over a declared value. -/
def regionRoundTrip (env : AddressEnv) (d : AddressData) (v : String) :
    Except String (Option GVal) :=
  match expandComputeAddressRegion env d v with
  | .error e => .error e
  | .ok w => .ok (flattenComputeAddressRegion (GVal.str w))

/-- A route state as declared by a user: every identity field set, no id
assigned yet. -/
def routeBase : RouteData :=
  { name := "r1", destRange := "10.0.0.0/8", network := "default",
    nextHopIp := "10.0.0.5", nextHopInstance := "", nextHopInstanceZone := "",
    nextHopGateway := "", nextHopNetwork := "", priority := 1000, tags := [],
    id := "" }

/-- The same route after a successful create assigned its identity. -/
def routePresent : RouteData := { routeBase with id := "r1" }

/-- A route API in which every call succeeds except the insert poll, which
times out. -/
def routeEnvTimeout : RouteEnv :=
  { getNetwork := fun _ => .ok "network-self-link",
    getInstance := fun _ _ => .ok "instance-self-link",
    insertRoute := fun _ => .ok (),
    pollInsert := .error "timed out waiting for state",
    getRoute := fun _ => .ok (),
    deleteRoute := fun _ => .ok (),
    pollDelete := .ok none }

/-- A route API whose delete answers 404: the remote route is already gone. -/
def routeEnvDeleteGone : RouteEnv :=
  { routeEnvTimeout with
    deleteRoute := fun _ => .error { notFound := true, msg := "googleapi: Error 404: not found" } }

/-- A route API whose fetch answers 404: the remote route is already gone. -/
def routeEnvReadGone : RouteEnv :=
  { routeEnvTimeout with
    getRoute := fun _ => .error { notFound := true, msg := "googleapi: Error 404: not found" } }

/-- An address state as declared by a user: only the name set, everything else
left to defaults (the framework substitutes the schema default "EXTERNAL" for
the unset address type). -/
def addrBase : AddressData :=
  { name := ⟨"a1", true⟩, address := ⟨"", false⟩,
    addressType := ⟨"EXTERNAL", false⟩, description := ⟨"", false⟩,
    networkTier := ⟨"", false⟩, subnetwork := ⟨"", false⟩,
    region := ⟨"", false⟩, project := ⟨"", false⟩,
    creationTimestamp := "", users := GVal.strList [], selfLink := "", id := "" }

/-- The same address after a successful create assigned its identity. -/
def addrPresent : AddressData := { addrBase with id := "p/r/a1" }

/-- A remote object carrying every wire field of the address kind. -/
def resFull : ResMap :=
  [ ("address", GVal.str "1.2.3.4"),
    ("addressType", GVal.str "INTERNAL"),
    ("creationTimestamp", GVal.str "2018-01-01T00:00:00Z"),
    ("description", GVal.str "static ip"),
    ("name", GVal.str "a1"),
    ("networkTier", GVal.str "PREMIUM"),
    ("subnetwork", GVal.str "projects/p/regions/r/subnetworks/sn"),
    ("users", GVal.strList ["projects/p/zones/z/instances/i1"]),
    ("region", GVal.str "https://www.googleapis.com/compute/v1/projects/p/regions/r"),
    ("selfLink", GVal.str "https://www.googleapis.com/compute/v1/projects/p/regions/r/addresses/a1") ]

/-- A remote object that lacks the selfLink key. -/
def resNoSelf : ResMap := [("addressType", GVal.str "INTERNAL")]

/-- An address API with ambient defaults project p and region r, a working
transport, and a create poll that fails. -/
def addrEnvMain : AddressEnv :=
  { project := some "p", region := some "r",
    sendPost := fun _ _ => .ok [],
    sendGet := fun _ => .ok resFull,
    sendDelete := fun _ => .ok [],
    convertCreate := fun _ => .ok (),
    convertDelete := fun _ => .ok (),
    pollCreate := .error "async operation failed",
    pollDelete := .ok () }

/-- An address API whose fetch and delete both answer 404: the remote address
is already gone. -/
def addrEnvNotFound : AddressEnv :=
  { addrEnvMain with
    sendGet := fun _ => .error { notFound := true, msg := "googleapi: Error 404: not found" },
    sendDelete := fun _ => .error { notFound := true, msg := "googleapi: Error 404: not found" } }

/-- An address API whose fetch answers a response without a selfLink key. -/
def addrEnvNoSelf : AddressEnv :=
  { addrEnvMain with sendGet := fun _ => .ok resNoSelf }

/-- The state a successful Read of `resFull` hydrates: every field flattened
from the wire object, the project from the ambient default. -/
def addrReadResult : AddressData :=
  { name := ⟨"a1", true⟩, address := ⟨"1.2.3.4", true⟩, addressType := ⟨"INTERNAL", true⟩,
    description := ⟨"static ip", true⟩, networkTier := ⟨"PREMIUM", true⟩,
    subnetwork := ⟨"projects/p/regions/r/subnetworks/sn", true⟩, region := ⟨"r", true⟩,
    project := ⟨"p", true⟩, creationTimestamp := "2018-01-01T00:00:00Z",
    users := GVal.strList ["projects/p/zones/z/instances/i1"],
    selfLink := "https://www.googleapis.com/compute/v1/projects/p/regions/r/addresses/a1",
    id := "p/r/a1" }

/-- Unpacks the per-field inclusion test of the create body. -/
theorem fieldIncluded_spec {f : SField} {e : String} (h : fieldIncluded f e = true) :
    e ≠ "" ∧ (f.hasVal = true ∨ f.val ≠ e) := by
  simp only [fieldIncluded, isEmptyValue, Bool.and_eq_true, Bool.not_eq_true',
    beq_eq_false_iff_ne, ne_eq, Bool.or_eq_true, bne_iff_ne] at h
  exact h

/-- Membership in one field's contribution to the create body forces the
inclusion test. -/
theorem mem_entryIf {k : String} {f : SField} {e : String} {kv : String × String}
    (h : kv ∈ entryIf k f e) : kv = (k, e) ∧ fieldIncluded f e = true := by
  unfold entryIf at h
  by_cases hc : fieldIncluded f e = true
  · simp only [hc, if_true, List.mem_singleton] at h
    exact ⟨h, hc⟩
  · simp only [hc, if_false, Bool.false_eq_true, List.not_mem_nil] at h

/-- C1: the claim fails on the route kind.  With a working transport and a
poll that times out, `resourceComputeRouteCreate` returns the wait error with
the just-assigned identity still recorded ("r1", not cleared), so a timed-out
Create does leave an identity. -/
theorem C1_counterexample :
    resourceComputeRouteCreate routeEnvTimeout routeBase =
      (.error (.plain "Error waiting for route to create: timed out waiting for state"),
       { routeBase with id := "r1" }) ∧
    (resourceComputeRouteCreate routeEnvTimeout routeBase).2.id = "r1" :=
  ⟨rfl, rfl⟩

/-- C2: the claim fails on the route kind.  When the deletion request answers
404, `resourceComputeRouteDelete` returns an ordinary error instead of
success, so a second Delete on an already-gone route errors. -/
theorem C2_counterexample :
    routeEnvDeleteGone.deleteRoute routePresent.id =
      .error { notFound := true, msg := "googleapi: Error 404: not found" } ∧
    resourceComputeRouteDelete routeEnvDeleteGone routePresent =
      (.error (.plain "Error deleting route: googleapi: Error 404: not found"), routePresent) :=
  ⟨rfl, rfl⟩

/-- C3: the claim fails on the route kind.  When the fetch answers 404,
`resourceComputeRouteRead` returns an ordinary error and leaves the identity
recorded instead of reporting a non-fatal absent condition. -/
theorem C3_counterexample :
    resourceComputeRouteRead routeEnvReadGone routePresent =
      (.error (.plain "Error reading route: googleapi: Error 404: not found"), routePresent) ∧
    routePresent.id = "r1" :=
  ⟨rfl, rfl⟩

/-- C4: the claim fails: not every declared field of the two kinds carries
ForceNew.  The route schema's tags field and the address kind's computed-only
fields (creation_timestamp, users, self_link) have no ForceNew flag. -/
theorem C4_counterexample :
    ((resourceComputeRouteSchema ++ resourceComputeAddressSchema).all
      (fun f => f.forceNew)) = false ∧
    (resourceComputeRouteSchema.filter (fun f => !f.forceNew)).map (fun f => f.attrName) =
      ["tags"] ∧
    (resourceComputeAddressSchema.filter (fun f => !f.forceNew)).map (fun f => f.attrName) =
      ["creation_timestamp", "users", "self_link"] := by
  decide

/-- C4 amended: every user-configurable (required or optional) field of the
two kinds carries ForceNew except the route's tags field, and the only fields
without ForceNew are tags and the address kind's computed-only ones. -/
theorem C4_amended :
    ((resourceComputeRouteSchema ++ resourceComputeAddressSchema).filter
      (fun f => (f.required || f.optional) && f.attrName != "tags")).all
        (fun f => f.forceNew) = true ∧
    ((resourceComputeRouteSchema ++ resourceComputeAddressSchema).filter
      (fun f => !f.forceNew)).all
        (fun f => f.attrName == "tags" || (!f.required && !f.optional && f.computed)) = true := by
  decide

/-- C6: resolving the fully-qualified import id tries the patterns in
declaration order with whole-string matching and yields the field map of the
first pattern, never the bare-name fallback binding. -/
theorem C6_import_precedence :
    parseImportId addressImportPatterns "projects/p1/regions/r1/addresses/a1" =
      .ok [("project", "p1"), ("region", "r1"), ("name", "a1")] ∧
    ([("project", "p1"), ("region", "r1"), ("name", "a1")] : List (String × String)) ≠
      [("name", "projects/p1/regions/r1/addresses/a1")] :=
  ⟨rfl, by decide⟩

/-- When the create poll stage surfaces an `OperationError`, the id it leaves
behind is cleared. -/
theorem routeCreatePoll_op_clears (env : RouteEnv) (d : RouteData) (n e : String)
    (h : (routeCreatePoll env d n).1 = .error (.operation e)) :
    (routeCreatePoll env d n).2.id = "" := by
  unfold routeCreatePoll resourceComputeRouteRead at h ⊢
  repeat' split at h
  all_goals simp_all

/-- When the create submit stage surfaces an `OperationError`, the id it
leaves behind is cleared. -/
theorem routeCreateSubmit_op_clears (env : RouteEnv) (d : RouteData) (route : RouteWire)
    (e : String) (h : (routeCreateSubmit env d route).1 = .error (.operation e)) :
    (routeCreateSubmit env d route).2.id = "" := by
  unfold routeCreateSubmit at h ⊢
  split at h
  · simp_all
  · exact routeCreatePoll_op_clears env d route.name e h

/-- C1 amended: address Create clears the just-assigned identity whenever the
poller errors (operation failure and timeout alike); route Create clears it
when the completed operation reports a failure (OperationError) but leaves it
recorded when the poll itself errors, a timeout included. -/
theorem C1_amended :
    (∀ (env : AddressEnv) (d : AddressData) (obj : List (String × String))
       (url : String) (res : ResMap) (idStr p w : String),
        buildAddressCreateObj env d = .ok obj →
        addressCollectionUrl env d = .ok url →
        env.sendPost url obj = .ok res →
        addressIdString env d = .ok idStr →
        getProject { d with id := idStr } env = .ok p →
        env.convertCreate res = .ok () →
        env.pollCreate = .error w →
        resourceComputeAddressCreate env d =
          Outcome.err (.plain ("Error waiting to create Address: " ++ w)) { d with id := "" }) ∧
    (∀ (env : RouteEnv) (d : RouteData) (e : String),
        (resourceComputeRouteCreate env d).1 = .error (.operation e) →
        (resourceComputeRouteCreate env d).2.id = "") ∧
    (∀ (env : RouteEnv) (d : RouteData) (netLink w : String),
        env.getNetwork d.network = .ok netLink →
        d.nextHopInstance = "" → d.nextHopNetwork = "" →
        (∀ rw, env.insertRoute rw = .ok ()) →
        env.pollInsert = .error w →
        (resourceComputeRouteCreate env d).2.id = d.name) := by
  refine ⟨?_, ?_, ?_⟩
  · intro env d obj url res idStr p w h1 h2 h3 h4 h5 h6 h7
    simp only [resourceComputeAddressCreate, h1, h2, h3, h4, h5, h6, h7]
  · intro env d e h
    unfold resourceComputeRouteCreate at h ⊢
    repeat' split at h
    all_goals first
      | exact routeCreateSubmit_op_clears _ _ _ _ h
      | simp_all
  · intro env d netLink w h1 h2 h3 h4 h5
    simp [resourceComputeRouteCreate, routeCreateSubmit, routeCreatePoll, h1, h2, h3, h4, h5]

/-- C1 witness: the amended property at a concrete run whose create poll
fails. -/
theorem C1_witness :
    resourceComputeAddressCreate addrEnvMain addrBase =
      Outcome.err (.plain ("Error waiting to create Address: " ++ "async operation failed"))
        { addrBase with id := "" } :=
  C1_amended.1 addrEnvMain addrBase [("name", "a1")]
    "https://www.googleapis.com/compute/v1/projects/p/regions/r/addresses" [] "p/r/a1" "p"
    "async operation failed" rfl rfl rfl rfl rfl rfl rfl

/-- C2 amended: address Delete treats a 404 answer as success, clears the
identity and consults no poll; route Delete surfaces any deletion-request
error, a 404 included, as an ordinary error with the identity left intact. -/
theorem C2_amended :
    (∀ (env : AddressEnv) (d : AddressData) (url : String) (e : ApiError),
        addressSelfUrl env d = .ok url →
        env.sendDelete url = .error e →
        e.notFound = true →
        resourceComputeAddressDelete env d = Outcome.ok { d with id := "" }) ∧
    (∀ (env : RouteEnv) (d : RouteData) (e : ApiError),
        env.deleteRoute d.id = .error e →
        resourceComputeRouteDelete env d =
          (.error (.plain ("Error deleting route: " ++ e.msg)), d)) := by
  constructor
  · intro env d url e h1 h2 h3
    simp only [resourceComputeAddressDelete, h1, h2, h3, if_true]
  · intro env d e h
    simp only [resourceComputeRouteDelete, h]

/-- C2 witness: the amended property at a concrete already-gone address. -/
theorem C2_witness :
    resourceComputeAddressDelete addrEnvNotFound addrPresent =
      Outcome.ok { addrPresent with id := "" } :=
  C2_amended.1 addrEnvNotFound addrPresent
    "https://www.googleapis.com/compute/v1/projects/p/regions/r/addresses/a1"
    { notFound := true, msg := "googleapi: Error 404: not found" } rfl rfl rfl

/-- C3 amended: address Read converts a 404 fetch into success with the
identity cleared (the non-fatal absent condition); route Read surfaces every
fetch error, a 404 included, as an ordinary error with the identity left
intact. -/
theorem C3_amended :
    (∀ (env : AddressEnv) (d : AddressData) (url : String) (e : ApiError),
        addressSelfUrl env d = .ok url →
        env.sendGet url = .error e →
        e.notFound = true →
        resourceComputeAddressRead env d = Outcome.ok { d with id := "" }) ∧
    (∀ (env : RouteEnv) (d : RouteData) (e : ApiError),
        env.getRoute d.id = .error e →
        resourceComputeRouteRead env d =
          (.error (.plain ("Error reading route: " ++ e.msg)), d)) := by
  constructor
  · intro env d url e h1 h2 h3
    simp only [resourceComputeAddressRead, h1, h2, h3, if_true]
  · intro env d e h
    simp only [resourceComputeRouteRead, h]

/-- C3 witness: the amended property at a concrete already-gone address. -/
theorem C3_witness :
    resourceComputeAddressRead addrEnvNotFound addrPresent =
      Outcome.ok { addrPresent with id := "" } :=
  C3_amended.1 addrEnvNotFound addrPresent
    "https://www.googleapis.com/compute/v1/projects/p/regions/r/addresses/a1"
    { notFound := true, msg := "googleapi: Error 404: not found" } rfl rfl rfl

/-- C5: the create body of the address kind never carries an empty expanded
value, and every entry belongs to a declared field that was either explicitly
set or differs from its expanded value. -/
theorem C5_payload_invariant (env : AddressEnv) (d : AddressData)
    (obj : List (String × String)) (hobj : buildAddressCreateObj env d = .ok obj) :
    ∀ kv ∈ obj, kv.2 ≠ "" ∧
      ∃ f, declaredFieldOf d kv.1 = some f ∧ (f.hasVal = true ∨ f.val ≠ kv.2) := by
  unfold buildAddressCreateObj at hobj
  rcases hs : expandComputeAddressSubnetwork env d d.subnetwork.val with es | sp
  · rw [hs] at hobj; simp at hobj
  rw [hs] at hobj
  rcases hr : expandComputeAddressRegion env d d.region.val with er | rp
  · rw [hr] at hobj; simp at hobj
  rw [hr] at hobj
  simp only [Except.ok.injEq] at hobj
  subst hobj
  intro kv hkv
  simp only [List.mem_append] at hkv
  rcases hkv with ((((((hk | hk) | hk) | hk) | hk) | hk) | hk) <;>
    obtain ⟨hkv_eq, hinc⟩ := mem_entryIf hk <;> subst hkv_eq
  · exact ⟨(fieldIncluded_spec hinc).1, d.address, rfl, (fieldIncluded_spec hinc).2⟩
  · exact ⟨(fieldIncluded_spec hinc).1, d.addressType, rfl, (fieldIncluded_spec hinc).2⟩
  · exact ⟨(fieldIncluded_spec hinc).1, d.description, rfl, (fieldIncluded_spec hinc).2⟩
  · exact ⟨(fieldIncluded_spec hinc).1, d.name, rfl, (fieldIncluded_spec hinc).2⟩
  · exact ⟨(fieldIncluded_spec hinc).1, d.networkTier, rfl, (fieldIncluded_spec hinc).2⟩
  · exact ⟨(fieldIncluded_spec hinc).1, d.subnetwork, rfl, (fieldIncluded_spec hinc).2⟩
  · exact ⟨(fieldIncluded_spec hinc).1, d.region, rfl, (fieldIncluded_spec hinc).2⟩

/-- C5 witness: the invariant at a concrete declared state whose only
explicitly-set field is the name; the defaulted address type is omitted. -/
theorem C5_witness :
    buildAddressCreateObj addrEnvMain addrBase = .ok [("name", "a1")] ∧
    (("name", "a1") : String × String).2 ≠ "" ∧
      ∃ f, declaredFieldOf addrBase ("name", "a1").1 = some f ∧
        (f.hasVal = true ∨ f.val ≠ ("name", "a1").2) :=
  ⟨rfl, C5_payload_invariant addrEnvMain addrBase [("name", "a1")] rfl ("name", "a1") (by simp)⟩

/-- C7: the claim fails at the Import wrapper.  The id "a/b" matches no
pattern, so resolution answers the no-pattern-matched error, yet
`resourceComputeAddressImport` discards that error and returns success built
from the pre-existing state. -/
theorem C7_counterexample :
    parseImportId addressImportPatterns "a/b" =
      .error "Import id does not match any accepted format for this resource" ∧
    resourceComputeAddressImport addrEnvMain addrBase "a/b" =
      .ok { addrBase with id := "p/r/a1" } :=
  ⟨rfl, rfl⟩

/-- C7 amended: resolution always answers a field map or the
no-pattern-matched error, but `resourceComputeAddressImport` ignores that
error: on a no-match id it proceeds with the unmodified state and surfaces at
most an id-construction failure. -/
theorem C7_amended :
    (∀ importId, (∃ m, parseImportId addressImportPatterns importId = .ok m) ∨
        parseImportId addressImportPatterns importId =
          .error "Import id does not match any accepted format for this resource") ∧
    (∀ (env : AddressEnv) (d : AddressData) (importId : String) (e : String),
        parseImportId addressImportPatterns importId = .error e →
        resourceComputeAddressImport env d importId =
          match addressIdString env d with
          | .error e2 => .error (.plain ("Error constructing id: " ++ e2))
          | .ok idStr => .ok { d with id := idStr }) := by
  constructor
  · intro importId
    rcases hm : firstPatternMatch addressImportPatterns (splitOnSlash importId) with _ | m
    · exact Or.inr (by simp [parseImportId, hm])
    · exact Or.inl ⟨m, by simp [parseImportId, hm]⟩
  · intro env d importId e h
    simp [resourceComputeAddressImport, h]

/-- C7 witness: the amended property at a concrete no-match id over a state
whose identity fields resolve. -/
theorem C7_witness :
    resourceComputeAddressImport addrEnvMain addrPresent "x/y" =
      (match addressIdString addrEnvMain addrPresent with
       | .error e2 => .error (.plain ("Error constructing id: " ++ e2))
       | .ok idStr => .ok { addrPresent with id := idStr }) :=
  C7_amended.2 addrEnvMain addrPresent "x/y"
    "Import id does not match any accepted format for this resource" rfl

/-- C8: the claim fails on the subnetwork field.  A bare declared name "sn"
round-trips to the canonical relative link, while canonicalForm as claimed —
the identity on everything but self-links — leaves "sn" unchanged. -/
theorem C8_counterexample :
    expandComputeAddressSubnetwork addrEnvMain addrBase "sn" =
      .ok "projects/p/regions/r/subnetworks/sn" ∧
    flattenComputeAddressSubnetwork (GVal.str "projects/p/regions/r/subnetworks/sn") =
      some (GVal.str "projects/p/regions/r/subnetworks/sn") ∧
    canonicalFormSubnetwork "sn" = "sn" ∧
    ("projects/p/regions/r/subnetworks/sn" : String) ≠ "sn" :=
  ⟨rfl, rfl, rfl, by decide⟩

/-- C8 amended: flatten after expand is the identity on the plain scalar
fields, maps the address type to the EXTERNAL-defaulted canonical form, and
maps every accepted reference value — bare names and partial paths included,
not only self-links — to the canonical relative link (subnetwork) or short
name (region). -/
theorem C8_amended :
    (∀ v, expandComputeAddressAddress v = .ok v ∧
        flattenComputeAddressAddress (GVal.str v) = GVal.str v) ∧
    (∀ v, expandComputeAddressDescription v = .ok v ∧
        flattenComputeAddressDescription (GVal.str v) = GVal.str v) ∧
    (∀ v, expandComputeAddressName v = .ok v ∧
        flattenComputeAddressName (GVal.str v) = GVal.str v) ∧
    (∀ v, expandComputeAddressNetworkTier v = .ok v ∧
        flattenComputeAddressNetworkTier (GVal.str v) = GVal.str v) ∧
    (∀ v, expandComputeAddressAddressType v = .ok v ∧
        flattenComputeAddressAddressType (GVal.str v) =
          some (GVal.str (canonicalFormAddressType v))) ∧
    (∀ (env : AddressEnv) (d : AddressData) (v p r n : String),
        parseRegionalFieldValue "subnetworks" v (ambientProject env d) (ambientRegion env d) =
          .ok ⟨p, r, "subnetworks", n⟩ →
        strHasPre "https://www.googleapis.com/compute/beta/"
          (RegionalFieldValue.relativeLink ⟨p, r, "subnetworks", n⟩) = false →
        subnetworkRoundTrip env d v =
          .ok (some (GVal.str (RegionalFieldValue.relativeLink ⟨p, r, "subnetworks", n⟩)))) ∧
    (∀ (env : AddressEnv) (d : AddressData) (v p n : String),
        parseGlobalFieldValue "regions" v (ambientProject env d) = .ok ⟨p, "regions", n⟩ →
        GetResourceNameFromSelfLink (GlobalFieldValue.relativeLink ⟨p, "regions", n⟩) = n →
        regionRoundTrip env d v = .ok (some (GVal.str n))) := by
  refine ⟨fun v => ⟨rfl, rfl⟩, fun v => ⟨rfl, rfl⟩, fun v => ⟨rfl, rfl⟩, fun v => ⟨rfl, rfl⟩,
    ?_, ?_, ?_⟩
  · intro v
    refine ⟨rfl, ?_⟩
    unfold flattenComputeAddressAddressType canonicalFormAddressType
    by_cases h : v = "" <;> simp [h]
  · intro env d v p r n hparse hlink
    simp only [subnetworkRoundTrip, expandComputeAddressSubnetwork, hparse,
      flattenComputeAddressSubnetwork]
    simp [ConvertSelfLinkToV1, hlink]
  · intro env d v p n hparse hshort
    simp only [regionRoundTrip, expandComputeAddressRegion, hparse,
      flattenComputeAddressRegion]
    simp [hshort]

/-- C8 witness: the amended reference round trip at a concrete partial path
with the ambient project. -/
theorem C8_witness :
    subnetworkRoundTrip addrEnvMain addrBase "r9/sn9" =
      .ok (some (GVal.str (RegionalFieldValue.relativeLink ⟨"p", "r9", "subnetworks", "sn9"⟩))) :=
  C8_amended.2.2.2.2.2.1 addrEnvMain addrBase "r9/sn9" "p" "r9" "sn9" rfl rfl

/-- C9: the claim fails on the route kind.  A successful route Read discards
the fetched object and returns the state unchanged — no declared field is
written from the wire. -/
theorem C9_counterexample :
    resourceComputeRouteRead routeEnvTimeout routePresent = (.ok (), routePresent) ∧
    routePresent.destRange = "10.0.0.0/8" :=
  ⟨rfl, rfl⟩

/-- C9 amended: a successful address Read writes every declared field by
flattening its wire counterpart (self_link through `ConvertSelfLinkToV1`),
except project, which comes from the ambient context; a successful route Read
writes nothing. -/
theorem C9_amended :
    (∀ (env : AddressEnv) (d : AddressData) (url : String) (res : ResMap) (dr : AddressData),
        addressSelfUrl env d = .ok url →
        env.sendGet url = .ok res →
        resourceComputeAddressRead env d = Outcome.ok dr →
        dr.address.val = gvalToString (flattenComputeAddressAddress (ResMap.find res "address")) ∧
        (∃ w, flattenComputeAddressAddressType (ResMap.find res "addressType") = some w ∧
              dr.addressType.val = gvalToString w) ∧
        dr.creationTimestamp =
          gvalToString (flattenComputeAddressCreationTimestamp (ResMap.find res "creationTimestamp")) ∧
        dr.description.val =
          gvalToString (flattenComputeAddressDescription (ResMap.find res "description")) ∧
        dr.name.val = gvalToString (flattenComputeAddressName (ResMap.find res "name")) ∧
        dr.networkTier.val =
          gvalToString (flattenComputeAddressNetworkTier (ResMap.find res "networkTier")) ∧
        (∃ w, flattenComputeAddressSubnetwork (ResMap.find res "subnetwork") = some w ∧
              dr.subnetwork.val = gvalToString w) ∧
        dr.users = flattenComputeAddressUsers (ResMap.find res "users") ∧
        (∃ w, flattenComputeAddressRegion (ResMap.find res "region") = some w ∧
              dr.region.val = gvalToString w) ∧
        (∃ s, ResMap.find res "selfLink" = GVal.str s ∧ dr.selfLink = ConvertSelfLinkToV1 s) ∧
        (∃ pr, getProject d env = .ok pr ∧ dr.project.val = pr)) ∧
    (∀ (env : RouteEnv) (d : RouteData), (resourceComputeRouteRead env d).2 = d) := by
  constructor
  · intro env d url res dr h1 h2 h3
    unfold resourceComputeAddressRead at h3
    simp only [h1, h2] at h3
    rcases hA : flattenComputeAddressAddressType (ResMap.find res "addressType") with _ | wA
    · simp [hA] at h3
    simp only [hA] at h3
    rcases hS : flattenComputeAddressSubnetwork (ResMap.find res "subnetwork") with _ | wS
    · simp [hS] at h3
    simp only [hS] at h3
    rcases hR : flattenComputeAddressRegion (ResMap.find res "region") with _ | wR
    · simp [hR] at h3
    simp only [hR] at h3
    rcases hL : ResMap.find res "selfLink" with _ | s | nn | ls
    · simp [hL] at h3
    · simp only [hL] at h3
      rcases hP : getProject d env with eP | pr
      · simp [hP] at h3
      simp only [hP, Outcome.ok.injEq] at h3
      subst h3
      exact ⟨rfl, ⟨wA, rfl, rfl⟩, rfl, rfl, rfl, rfl, ⟨wS, rfl, rfl⟩, rfl, ⟨wR, rfl, rfl⟩,
        ⟨s, rfl, rfl⟩, ⟨pr, rfl, rfl⟩⟩
    · simp [hL] at h3
    · simp [hL] at h3
  · intro env d
    rcases h : env.getRoute d.id with e | u <;> simp [resourceComputeRouteRead, h]

/-- C9 witness: the amended property at a concrete successful Read of a full
remote object. -/
theorem C9_witness :
    addrReadResult.address.val =
      gvalToString (flattenComputeAddressAddress (ResMap.find resFull "address")) ∧
    (∃ w, flattenComputeAddressAddressType (ResMap.find resFull "addressType") = some w ∧
          addrReadResult.addressType.val = gvalToString w) ∧
    addrReadResult.creationTimestamp =
      gvalToString (flattenComputeAddressCreationTimestamp (ResMap.find resFull "creationTimestamp")) ∧
    addrReadResult.description.val =
      gvalToString (flattenComputeAddressDescription (ResMap.find resFull "description")) ∧
    addrReadResult.name.val = gvalToString (flattenComputeAddressName (ResMap.find resFull "name")) ∧
    addrReadResult.networkTier.val =
      gvalToString (flattenComputeAddressNetworkTier (ResMap.find resFull "networkTier")) ∧
    (∃ w, flattenComputeAddressSubnetwork (ResMap.find resFull "subnetwork") = some w ∧
          addrReadResult.subnetwork.val = gvalToString w) ∧
    addrReadResult.users = flattenComputeAddressUsers (ResMap.find resFull "users") ∧
    (∃ w, flattenComputeAddressRegion (ResMap.find resFull "region") = some w ∧
          addrReadResult.region.val = gvalToString w) ∧
    (∃ s, ResMap.find resFull "selfLink" = GVal.str s ∧
          addrReadResult.selfLink = ConvertSelfLinkToV1 s) ∧
    (∃ pr, getProject addrPresent addrEnvMain = .ok pr ∧ addrReadResult.project.val = pr) :=
  C9_amended.1 addrEnvMain addrPresent
    "https://www.googleapis.com/compute/v1/projects/p/regions/r/addresses/a1" resFull
    addrReadResult rfl rfl rfl

/-- C10: with the fetch succeeding, address Read completes normally only when
the response holds a string under selfLink — any other value crashes the
unguarded assertion — while the other guarded flatten functions tolerate
nil. -/
theorem C10_selflink_assertion (env : AddressEnv) (d : AddressData) (url : String)
    (res : ResMap) (h1 : addressSelfUrl env d = .ok url) (h2 : env.sendGet url = .ok res)
    (h3 : ∀ s, ResMap.find res "selfLink" ≠ GVal.str s) :
    resourceComputeAddressRead env d = Outcome.crashed ∧
    flattenComputeAddressAddressType GVal.vnil = some (GVal.str "EXTERNAL") ∧
    flattenComputeAddressSubnetwork GVal.vnil = some GVal.vnil ∧
    flattenComputeAddressRegion GVal.vnil = some GVal.vnil := by
  refine ⟨?_, rfl, rfl, rfl⟩
  unfold resourceComputeAddressRead
  rw [h1]
  simp only []
  rw [h2]
  simp only []
  rcases hA : flattenComputeAddressAddressType (ResMap.find res "addressType") with _ | wA
  · simp only [hA]
  · simp only [hA]
    rcases hS : flattenComputeAddressSubnetwork (ResMap.find res "subnetwork") with _ | wS
    · simp only [hS]
    · simp only [hS]
      rcases hR : flattenComputeAddressRegion (ResMap.find res "region") with _ | wR
      · simp only [hR]
      · simp only [hR]

/-- C10 witness: a fetched response without a selfLink key crashes the Read
instead of returning. -/
theorem C10_witness :
    resourceComputeAddressRead addrEnvNoSelf addrPresent = Outcome.crashed ∧
    flattenComputeAddressAddressType GVal.vnil = some (GVal.str "EXTERNAL") ∧
    flattenComputeAddressSubnetwork GVal.vnil = some GVal.vnil ∧
    flattenComputeAddressRegion GVal.vnil = some GVal.vnil :=
  C10_selflink_assertion addrEnvNoSelf addrPresent
    "https://www.googleapis.com/compute/v1/projects/p/regions/r/addresses/a1" resNoSelf
    rfl rfl (fun _s h => nomatch h)
